import Mathlib

/-!
Shallow embedding of the VNC server repository (Python) and proofs about it.

Each definition mirrors one Python function of the repository; the module of
origin is named in the doc comment.  Machine integers are modelled as `Nat`
(bytes are `Nat` values below 256), Python `None` as `Option`, fallible
`struct.pack`/`struct.unpack` calls as `Option`-returning functions, and
wall-clock time is passed explicitly as a `Nat` argument to the functions
that call `time.time()`.
-/

namespace Authentication

/-- `User` dataclass from `vnc-server/authentication.py`.  `created_at` and
`last_login` are timestamps (seconds); the hash function is kept abstract, so
`password_hash` and `salt` are plain strings exactly as in the source. -/
structure User where
  username : String
  password_hash : String
  salt : String
  created_at : Nat
  last_login : Option Nat := none
  login_attempts : Nat := 0
deriving Repr, DecidableEq

/-- `VNCAuth.max_login_attempts` from `vnc-server/authentication.py`. -/
def max_login_attempts : Nat := 3

/-- `VNCAuth.lockout_duration` from `vnc-server/authentication.py` (seconds). -/
def lockout_duration : Nat := 300

/-- `VNCAuth.authenticate` from `vnc-server/authentication.py`, for a user
present in the store (the store wrapper returns `False` when the username is
absent).  `hashPw password salt` stands for `self._hash_password(password,
salt)` (PBKDF2 is kept abstract), `now` for `time.time()`.  The result is the
returned boolean together with the updated user record.

Faithfulness notes: Python's `if user.last_login and ...` treats both `None`
and the timestamp `0.0` as falsy, hence the `t ≠ 0` conjunct; `time.time() -
user.last_login < 300` agrees with truncated `Nat` subtraction because a
negative Python difference and a truncated-to-zero `Nat` difference both
satisfy `< 300`. -/
def authenticate (hashPw : String → String → String) (now : Nat)
    (user : User) (password : String) : Bool × User :=
  -- lockout check: `if user.login_attempts >= self.max_login_attempts`
  if user.login_attempts ≥ max_login_attempts then
    match user.last_login with
    | some t =>
      if t ≠ 0 ∧ now - t < lockout_duration then
        (false, user)
      else
        -- reset login attempts after lockout period, then fall through
        authCheck hashPw now { user with login_attempts := 0 } password
    | none => authCheck hashPw now { user with login_attempts := 0 } password
  else
    authCheck hashPw now user password
where
  /-- The password-verification tail of `VNCAuth.authenticate` (the code after
  the lockout check): compare hashes, update bookkeeping. -/
  authCheck (hashPw : String → String → String) (now : Nat)
      (user : User) (password : String) : Bool × User :=
    if hashPw password user.salt = user.password_hash then
      (true, { user with last_login := some now, login_attempts := 0 })
    else
      let attempts := user.login_attempts + 1
      if attempts = 1 then
        (false, { user with login_attempts := attempts, last_login := some now })
      else
        (false, { user with login_attempts := attempts })

/-- `VNCAuth.add_user` from `vnc-server/authentication.py` over the user
table (`self.users`, modelled as an association list in insertion order).
`salt` stands for the value of `self._generate_salt()` and `hashPw` for
`self._hash_password`; both are only consulted when a user is actually
created.  The second component is the updated table and the third records
whether `self.save_users()` was called. -/
def add_user (hashPw : String → String → String) (salt : String) (now : Nat)
    (users : List (String × User)) (username password : String) :
    Bool × List (String × User) × Bool :=
  if (users.lookup username).isSome then
    (false, users, false)  -- user already exists: return False, no mutation
  else
    let user : User :=
      { username := username
        password_hash := hashPw password salt
        salt := salt
        created_at := now }
    (true, users ++ [(username, user)], true)

/-- `VNCAuth.vnc_challenge_response` from `vnc-server/authentication.py`:
`key = (password + '\x00' * 8)[:8].encode('utf-8')` followed by a byte-wise
XOR of the 16-byte challenge with `key[i % 8]`.  Strings are modelled at the
byte level (`List Nat`), which agrees with the source for ASCII passwords. -/
def vnc_challenge_response (password : List Nat) (challenge : List Nat) :
    List Nat :=
  let key := (password ++ List.replicate 8 0).take 8
  (List.range 16).map fun i => Nat.xor (challenge.getD i 0) (key.getD (i % 8) 0)

end Authentication

namespace Rfb

/-- Big-endian byte serialization of a 16-bit value (`struct` format `H`). -/
def u16be (n : Nat) : List Nat := [n / 256 % 256, n % 256]

/-- Big-endian byte serialization of a 32-bit value (`struct` format `I`). -/
def u32be (n : Nat) : List Nat :=
  [n / 16777216 % 256, n / 65536 % 256, n / 256 % 256, n % 256]

/-- Big-endian deserialization of two bytes. -/
def beToNat2 (b0 b1 : Nat) : Nat := b0 * 256 + b1

/-- Big-endian deserialization of four bytes. -/
def beToNat4 (b0 b1 b2 b3 : Nat) : Nat :=
  ((b0 * 256 + b1) * 256 + b2) * 256 + b3

/-- `PixelFormat` from `vnc/protocol/rfb.py` (constructor defaults included). -/
structure PixelFormat where
  bits_per_pixel : Nat := 32
  depth : Nat := 24
  big_endian : Bool := false
  true_colour : Bool := true
  red_max : Nat := 255
  green_max : Nat := 255
  blue_max : Nat := 255
  red_shift : Nat := 16
  green_shift : Nat := 8
  blue_shift : Nat := 0
deriving Repr, DecidableEq

/-- `PixelFormat.pack` from `vnc/protocol/rfb.py`:
`struct.pack("!BBBBHHHBBB3x", ...)`.  `struct.pack` raises `struct.error`
when a `B` argument is outside `0..255` or an `H` argument is outside
`0..65535`; that failure is the `none` case. -/
def PixelFormat.pack (pf : PixelFormat) : Option (List Nat) :=
  if pf.bits_per_pixel < 256 ∧ pf.depth < 256 ∧
     pf.red_max < 65536 ∧ pf.green_max < 65536 ∧ pf.blue_max < 65536 ∧
     pf.red_shift < 256 ∧ pf.green_shift < 256 ∧ pf.blue_shift < 256 then
    some ([pf.bits_per_pixel, pf.depth,
           if pf.big_endian then 1 else 0,
           if pf.true_colour then 1 else 0] ++
          u16be pf.red_max ++ u16be pf.green_max ++ u16be pf.blue_max ++
          [pf.red_shift, pf.green_shift, pf.blue_shift] ++
          [0, 0, 0])
  else
    none

/-- `PixelFormat.unpack` from `vnc/protocol/rfb.py`:
`struct.unpack("!BBBBHHHBBB3x", data)` (fails unless `data` is exactly 16
bytes), with `big_endian`/`true_colour` rebuilt through `bool(...)`. -/
def PixelFormat.unpack (data : List Nat) : Option PixelFormat :=
  match data with
  | [b0, b1, b2, b3, b4, b5, b6, b7, b8, b9, b10, b11, b12, _, _, _] =>
    some { bits_per_pixel := b0
           depth := b1
           big_endian := b2 ≠ 0
           true_colour := b3 ≠ 0
           red_max := beToNat2 b4 b5
           green_max := beToNat2 b6 b7
           blue_max := beToNat2 b8 b9
           red_shift := b10
           green_shift := b11
           blue_shift := b12 }
  | _ => none

/-- `VNCAuth.encrypt_challenge` from `vnc/protocol/rfb.py`:
`password.encode('utf-8')[:8].ljust(8, b'\0')` then a byte-wise XOR of the
16-byte challenge with `password_bytes[i % 8]`.  Strings are modelled at the
byte level, which agrees with the source for ASCII passwords. -/
def encrypt_challenge (challenge : List Nat) (password : List Nat) : List Nat :=
  let password_bytes := password.take 8 ++ List.replicate (8 - (password.take 8).length) 0
  (List.range 16).map fun i =>
    Nat.xor (challenge.getD i 0) (password_bytes.getD (i % 8) 0)

/-- `Rectangle` from `vnc/protocol/rfb.py`.  The `encoding` argument is an
`EncodingType` value, i.e. a (possibly negative) integer. -/
structure Rectangle where
  x : Nat
  y : Nat
  width : Nat
  height : Nat
  encoding : Int
  data : List Nat := []
deriving Repr, DecidableEq

/-- `Rectangle.pack_header` from `vnc/protocol/rfb.py`:
`struct.pack("!HHHHI", x, y, width, height, encoding)`.  Format `I` is an
unsigned 32-bit field, so `struct.pack` raises `struct.error` whenever the
encoding id is negative (as it is for the pseudo-encodings `CURSOR = -239`
and `DESKTOP_SIZE = -223`) or any field is out of range; those failures are
the `none` case. -/
def Rectangle.pack_header (r : Rectangle) : Option (List Nat) :=
  if r.x < 65536 ∧ r.y < 65536 ∧ r.width < 65536 ∧ r.height < 65536 ∧
     0 ≤ r.encoding ∧ r.encoding < 4294967296 then
    some (u16be r.x ++ u16be r.y ++ u16be r.width ++ u16be r.height ++
          u32be r.encoding.toNat)
  else
    none

/-- Modelled from the spec: the repository has no `unpack_header`, but the
spec's testable property `unpack_header(pack_header(R)) == R` presupposes
one.  Per the spec's message layout a rectangle header is `u16 x, u16 y,
u16 w, u16 h, i32 encoding` (network byte order, two's-complement signed
encoding id), and the header carries no payload, so `data` is empty. -/
def Rectangle.unpack_header (data : List Nat) : Option Rectangle :=
  match data with
  | [b0, b1, b2, b3, b4, b5, b6, b7, b8, b9, b10, b11] =>
    let raw := beToNat4 b8 b9 b10 b11
    some { x := beToNat2 b0 b1
           y := beToNat2 b2 b3
           width := beToNat2 b4 b5
           height := beToNat2 b6 b7
           encoding := if raw < 2147483648 then (raw : Int) else (raw : Int) - 4294967296 }
  | _ => none

/-- `FramebufferUpdate.pack` from `vnc/protocol/rfb.py`:
`struct.pack("!BxH", 0, len(rectangles))` followed by each rectangle's
packed header and data.  `none` when any `struct.pack` call raises. -/
def FramebufferUpdate.pack (rectangles : List Rectangle) : Option (List Nat) :=
  if rectangles.length < 65536 then
    (rectangles.mapM fun (r : Rectangle) => r.pack_header.map (· ++ r.data)).map fun bodies =>
      [0, 0] ++ u16be rectangles.length ++ bodies.flatten
  else
    none

/-- `KeySym` constants from `vnc/protocol/rfb.py`. -/
def KeySym.BACKSPACE : Nat := 0xff08

/-- `KeySym.TAB` from `vnc/protocol/rfb.py`. -/
def KeySym.TAB : Nat := 0xff09

/-- `KeySym.RETURN` from `vnc/protocol/rfb.py`. -/
def KeySym.RETURN : Nat := 0xff0d

/-- `KeySym.ESCAPE` from `vnc/protocol/rfb.py`. -/
def KeySym.ESCAPE : Nat := 0xff1b

/-- `KeySym.DELETE` from `vnc/protocol/rfb.py`. -/
def KeySym.DELETE : Nat := 0xffff

/-- `KeySym.SPACE` from `vnc/protocol/rfb.py`. -/
def KeySym.SPACE : Nat := 0x0020

/-- `EncodingType` member values from `vnc/protocol/rfb.py`
(`[e.value for e in EncodingType]`). -/
def EncodingType.values : List Int := [0, 1, 2, 5, 16, -239, -223]

end Rfb

namespace VncServer

/-- The per-client fields of `VNCClient.__init__` from
`vnc/server/vnc_server.py` that the message handlers below read or write
(the socket, address and protocol helper objects are connection plumbing). -/
structure VNCClient where
  authenticated : Bool := false
  pixel_format : Rfb.PixelFormat := {}
  encodings : List Int := [0]  -- `[EncodingType.RAW]`
  incremental_update : Bool := false
  update_requested : Bool := false
  active : Bool := true
deriving Repr, DecidableEq

/-- `VNCClient.handle_set_encodings` from `vnc/server/vnc_server.py`: after
the pad byte and the `u16` count, the handler reads `count` values with
`receive_uint32` (so each received id is an unsigned 32-bit `Nat`), replaces
`self.encodings` with the empty list and appends every received id that is a
member of `[e.value for e in EncodingType]`.  The received ids are the
`encodings` argument. -/
def handle_set_encodings (client : VNCClient) (encodings : List Nat) :
    VNCClient :=
  { client with
    encodings := (encodings.filter fun e => (e : Int) ∈ Rfb.EncodingType.values).map
      fun e => (e : Int) }

/-- `VNCClient._keysym_to_key` from `vnc/server/vnc_server.py`: dictionary of
named keys first, then printable ASCII via `chr(keysym)`, then the function
keys `0xFFBE..0xFFCD` via `f'f{keysym - 0xFFBD}'`, else `None`. -/
def keysym_to_key (keysym : Nat) : Option String :=
  if keysym = Rfb.KeySym.BACKSPACE then some "backspace"
  else if keysym = Rfb.KeySym.TAB then some "tab"
  else if keysym = Rfb.KeySym.RETURN then some "enter"
  else if keysym = Rfb.KeySym.ESCAPE then some "esc"
  else if keysym = Rfb.KeySym.DELETE then some "delete"
  else if keysym = Rfb.KeySym.SPACE then some "space"
  else if 0x20 ≤ keysym ∧ keysym ≤ 0x7E then
    some (String.mk [Char.ofNat keysym])
  else if 0xFFBE ≤ keysym ∧ keysym ≤ 0xFFCD then
    some ("f" ++ toString (keysym - 0xFFBD))
  else none

/-- `VNCServer._do_authentication` from `vnc/server/vnc_server.py`, with the
network reads supplied as arguments: `chosen_type` is the client's security
choice byte and `response` the 16 bytes it sends back to the `challenge`.
Authentication is enabled iff `self.password` is non-empty (Python
truthiness of the string).  The result is the bytes the server has sent
after the two-byte security-type list, the return value, and the client's
`authenticated` flag. -/
def do_authentication (password : List Nat) (challenge : List Nat)
    (chosen_type : Nat) (response : List Nat) :
    List Nat × Bool × Bool :=
  if password ≠ [] then
    -- offered `[VNC_AUTH]`; `chosen_type != SecurityType.VNC_AUTH` fails
    if chosen_type ≠ 2 then
      (Rfb.u32be 1, false, false)
    else
      let expected := Rfb.encrypt_challenge challenge password
      if response ≠ expected then
        (challenge ++ Rfb.u32be 1, false, false)
      else
        (challenge ++ Rfb.u32be 0, true, true)
  else
    -- offered `[NONE]`; `chosen_type != SecurityType.NONE` fails silently
    if chosen_type ≠ 1 then
      ([], false, false)
    else
      ([], true, true)

/-- `VNCServer._send_framebuffer_update` from `vnc/server/vnc_server.py`: a
single rectangle `Rectangle(0, 0, screen_width, screen_height,
EncodingType.RAW, screen_data)` wrapped in a `FramebufferUpdate`, regardless
of the client's encoding preference list. -/
def send_framebuffer_update (client : VNCClient)
    (screen_width screen_height : Nat) (screen_data : List Nat) :
    Option (List Nat) :=
  let _ := client  -- the client is used only as the destination socket
  Rfb.FramebufferUpdate.pack
    [{ x := 0, y := 0, width := screen_width, height := screen_height,
       encoding := 0, data := screen_data }]

end VncServer

namespace RfbProtocol

/-- A `struct.pack` format element as used by `vnc-server/rfb_protocol.py`:
the characters of the format string after `'!'`. -/
inductive FmtChar
  | B   -- unsigned 8-bit, consumes one argument
  | H   -- unsigned 16-bit, consumes one argument
  | I   -- unsigned 32-bit, consumes one argument
  | pad -- lowercase `x`: one zero byte, consumes no argument
  | bad -- any character that is not a valid `struct` format character
deriving Repr, DecidableEq

/-- `struct.pack` for the big-endian formats appearing in
`vnc-server/rfb_protocol.py`: `none` models `struct.error`, raised for an
invalid format character (such as the uppercase `X` in
`create_framebuffer_update`), an out-of-range value, or an argument count
that does not match the format exactly. -/
def structPack : List FmtChar → List Int → Option (List Nat)
  | [], [] => some []
  | [], _ :: _ => none  -- leftover arguments: struct.error
  | FmtChar.pad :: fmt, args =>
    (structPack fmt args).map fun rest => 0 :: rest
  | FmtChar.B :: fmt, a :: args =>
    if 0 ≤ a ∧ a < 256 then
      (structPack fmt args).map fun rest => a.toNat :: rest
    else none
  | FmtChar.H :: fmt, a :: args =>
    if 0 ≤ a ∧ a < 65536 then
      (structPack fmt args).map fun rest => Rfb.u16be a.toNat ++ rest
    else none
  | FmtChar.I :: fmt, a :: args =>
    if 0 ≤ a ∧ a < 4294967296 then
      (structPack fmt args).map fun rest => Rfb.u32be a.toNat ++ rest
    else none
  | FmtChar.bad :: _, _ => none  -- bad char in struct format
  | _, [] => none  -- missing arguments: struct.error

/-- `VNCConnection.create_framebuffer_update` from
`vnc-server/rfb_protocol.py`: `struct.pack('!BXHHHHHHI', FRAMEBUFFER_UPDATE,
1, x, y, width, height, RAW_ENCODING)` followed by the pixel payload.  The
format string contains the invalid character `X` (uppercase; only lowercase
`x` is a `struct` pad code) and supplies seven values for eight value slots,
so the `struct.pack` call raises on every input. -/
def create_framebuffer_update (x y width height : Nat) (pixels : List Nat) :
    Option (List Nat) :=
  (structPack
      [FmtChar.B, FmtChar.bad, FmtChar.H, FmtChar.H, FmtChar.H, FmtChar.H,
       FmtChar.H, FmtChar.H, FmtChar.I]
      [0, 1, (x : Int), (y : Int), (width : Int), (height : Int), 0]).map
    fun header => header ++ pixels

/-- One pixel of `VNCConnection.generate_demo_pixels` from
`vnc-server/rfb_protocol.py`: `struct.pack('!I', (r << 16) | (g << 8) | b)`
for the gradient values at `(x, y)`. -/
def demoPixel (width height x y : Nat) : List Nat :=
  let r := x * 255 / width
  let g := y * 255 / height
  let b := (x + y) * 255 / (width + height)
  Rfb.u32be (Nat.lor (Nat.lor (Nat.shiftLeft r 16) (Nat.shiftLeft g 8)) b)

/-- `VNCConnection.generate_demo_pixels` from `vnc-server/rfb_protocol.py`:
row-major concatenation of the per-pixel 4-byte packs. -/
def generate_demo_pixels (width height : Nat) : List Nat :=
  (List.range height).flatMap fun y =>
    (List.range width).flatMap fun x => demoPixel width height x y

/-- `VNCConnection.handle_authentication` from `vnc-server/rfb_protocol.py`,
with the network reads supplied as arguments: `choice` is the security-type
byte the client sends after the offer, `verifyOk` the value of
`self.auth_callback(challenge, response)` (only consulted on the `VNC_AUTH`
branch), and `challenge` the generated md5 challenge bytes.  `authEnabled`
models `self.auth_callback` being non-`None`.  The result records the bytes
sent after the two-byte security-type offer, the function's return value,
and the final `self.authenticated` flag. -/
def handle_authentication (authEnabled : Bool) (challenge : List Nat)
    (choice : Nat) (verifyOk : Bool) : List Nat × Bool × Bool :=
  if choice = 1 then
    -- `SECURITY_NONE`: send SecurityResult success and return True,
    -- regardless of whether VNC_AUTH was the only offered type
    (Rfb.u32be 0, true, false)
  else if choice = 2 ∧ authEnabled then
    if verifyOk then
      (challenge ++ Rfb.u32be 0, true, true)
    else
      (challenge ++ Rfb.u32be 1, true, false)
  else
    -- any other choice: return False without sending a SecurityResult
    ([], false, false)

/-- The two-byte security-type list `handle_authentication` offers before
reading the client's choice: `struct.pack('!BB', 1, VNC_AUTH)` when an auth
callback is installed, else `struct.pack('!BB', 1, NONE)`. -/
def security_types (authEnabled : Bool) : List Nat :=
  if authEnabled then [1, 2] else [1, 1]

end RfbProtocol

namespace CoreVncServer

/-- One iteration of `VNCServer._accept_connections` from
`vnc-server/core_vnc_server.py` after `accept()` returns: the new client
socket is appended to `self.clients` unconditionally (there is no
connection-count check of any kind) and a handler thread is spawned for it. -/
def accept_connection (clients : List Nat) (client_socket : Nat) : List Nat :=
  clients ++ [client_socket]

/-- The first bytes `VNCServer._handle_client` from
`vnc-server/core_vnc_server.py` writes to every accepted socket:
`client_socket.send(b"RFB 003.008\n")`. -/
def handle_client_greeting : List Nat :=
  [0x52, 0x46, 0x42, 0x20, 0x30, 0x30, 0x33, 0x2e, 0x30, 0x30, 0x38, 0x0a]

end CoreVncServer

namespace DesSpec

/-!
Modelled from the spec: the repository contains no DES implementation (its
challenge "encryption" is an XOR stub), but the spec's VNC challenge/response
contract requires "the DES-encryption of that challenge using the user's
password (left-padded/truncated to 8 bytes, each byte bit-reversed per the
VNC convention) as the key".  This namespace is a reference implementation of
single-block DES (FIPS 46-3) used to compare the code's response against the
spec's required response; `desEncryptBlock_fips_vector` below checks it
against the standard published test vector.
-/


/-- Select the listed 1-indexed bits (MSB first) of a `w`-bit word. -/
def permute (w : Nat) (table : List Nat) (x : Nat) : Nat :=
  table.foldl (fun acc i => 2 * acc + (if x.testBit (w - i) then 1 else 0)) 0

/-- DES initial permutation IP. -/
def ipTable : List Nat :=
  [58, 50, 42, 34, 26, 18, 10, 2,
   60, 52, 44, 36, 28, 20, 12, 4,
   62, 54, 46, 38, 30, 22, 14, 6,
   64, 56, 48, 40, 32, 24, 16, 8,
   57, 49, 41, 33, 25, 17, 9, 1,
   59, 51, 43, 35, 27, 19, 11, 3,
   61, 53, 45, 37, 29, 21, 13, 5,
   63, 55, 47, 39, 31, 23, 15, 7]

/-- DES final permutation, the inverse of IP. -/
def fpTable : List Nat :=
  [40, 8, 48, 16, 56, 24, 64, 32,
   39, 7, 47, 15, 55, 23, 63, 31,
   38, 6, 46, 14, 54, 22, 62, 30,
   37, 5, 45, 13, 53, 21, 61, 29,
   36, 4, 44, 12, 52, 20, 60, 28,
   35, 3, 43, 11, 51, 19, 59, 27,
   34, 2, 42, 10, 50, 18, 58, 26,
   33, 1, 41, 9, 49, 17, 57, 25]

/-- DES expansion E (32 bits to 48 bits). -/
def eTable : List Nat :=
  [32, 1, 2, 3, 4, 5,
   4, 5, 6, 7, 8, 9,
   8, 9, 10, 11, 12, 13,
   12, 13, 14, 15, 16, 17,
   16, 17, 18, 19, 20, 21,
   20, 21, 22, 23, 24, 25,
   24, 25, 26, 27, 28, 29,
   28, 29, 30, 31, 32, 1]

/-- DES permutation P inside the round function. -/
def pTable : List Nat :=
  [16, 7, 20, 21,
   29, 12, 28, 17,
   1, 15, 23, 26,
   5, 18, 31, 10,
   2, 8, 24, 14,
   32, 27, 3, 9,
   19, 13, 30, 6,
   22, 11, 4, 25]

/-- DES key-schedule permuted choice PC-1. -/
def pc1Table : List Nat :=
  [57, 49, 41, 33, 25, 17, 9,
   1, 58, 50, 42, 34, 26, 18,
   10, 2, 59, 51, 43, 35, 27,
   19, 11, 3, 60, 52, 44, 36,
   63, 55, 47, 39, 31, 23, 15,
   7, 62, 54, 46, 38, 30, 22,
   14, 6, 61, 53, 45, 37, 29,
   21, 13, 5, 28, 20, 12, 4]

/-- DES key-schedule permuted choice PC-2. -/
def pc2Table : List Nat :=
  [14, 17, 11, 24, 1, 5,
   3, 28, 15, 6, 21, 10,
   23, 19, 12, 4, 26, 8,
   16, 7, 27, 20, 13, 2,
   41, 52, 31, 37, 47, 55,
   30, 40, 51, 45, 33, 48,
   44, 49, 39, 56, 34, 53,
   46, 42, 50, 36, 29, 32]

/-- DES per-round left-rotation amounts. -/
def shiftSchedule : List Nat := [1, 1, 2, 2, 2, 2, 2, 2, 1, 2, 2, 2, 2, 2, 2, 1]

/-- DES substitution box S1 (rows concatenated). -/
def sbox1 : List Nat :=
  [14, 4, 13, 1, 2, 15, 11, 8, 3, 10, 6, 12, 5, 9, 0, 7,
   0, 15, 7, 4, 14, 2, 13, 1, 10, 6, 12, 11, 9, 5, 3, 8,
   4, 1, 14, 8, 13, 6, 2, 11, 15, 12, 9, 7, 3, 10, 5, 0,
   15, 12, 8, 2, 4, 9, 1, 7, 5, 11, 3, 14, 10, 0, 6, 13]

/-- DES substitution box S2. -/
def sbox2 : List Nat :=
  [15, 1, 8, 14, 6, 11, 3, 4, 9, 7, 2, 13, 12, 0, 5, 10,
   3, 13, 4, 7, 15, 2, 8, 14, 12, 0, 1, 10, 6, 9, 11, 5,
   0, 14, 7, 11, 10, 4, 13, 1, 5, 8, 12, 6, 9, 3, 2, 15,
   13, 8, 10, 1, 3, 15, 4, 2, 11, 6, 7, 12, 0, 5, 14, 9]

/-- DES substitution box S3. -/
def sbox3 : List Nat :=
  [10, 0, 9, 14, 6, 3, 15, 5, 1, 13, 12, 7, 11, 4, 2, 8,
   13, 7, 0, 9, 3, 4, 6, 10, 2, 8, 5, 14, 12, 11, 15, 1,
   13, 6, 4, 9, 8, 15, 3, 0, 11, 1, 2, 12, 5, 10, 14, 7,
   1, 10, 13, 0, 6, 9, 8, 7, 4, 15, 14, 3, 11, 5, 2, 12]

/-- DES substitution box S4. -/
def sbox4 : List Nat :=
  [7, 13, 14, 3, 0, 6, 9, 10, 1, 2, 8, 5, 11, 12, 4, 15,
   13, 8, 11, 5, 6, 15, 0, 3, 4, 7, 2, 12, 1, 10, 14, 9,
   10, 6, 9, 0, 12, 11, 7, 13, 15, 1, 3, 14, 5, 2, 8, 4,
   3, 15, 0, 6, 10, 1, 13, 8, 9, 4, 5, 11, 12, 7, 2, 14]

/-- DES substitution box S5. -/
def sbox5 : List Nat :=
  [2, 12, 4, 1, 7, 10, 11, 6, 8, 5, 3, 15, 13, 0, 14, 9,
   14, 11, 2, 12, 4, 7, 13, 1, 5, 0, 15, 10, 3, 9, 8, 6,
   4, 2, 1, 11, 10, 13, 7, 8, 15, 9, 12, 5, 6, 3, 0, 14,
   11, 8, 12, 7, 1, 14, 2, 13, 6, 15, 0, 9, 10, 4, 5, 3]

/-- DES substitution box S6. -/
def sbox6 : List Nat :=
  [12, 1, 10, 15, 9, 2, 6, 8, 0, 13, 3, 4, 14, 7, 5, 11,
   10, 15, 4, 2, 7, 12, 9, 5, 6, 1, 13, 14, 0, 11, 3, 8,
   9, 14, 15, 5, 2, 8, 12, 3, 7, 0, 4, 10, 1, 13, 11, 6,
   4, 3, 2, 12, 9, 5, 15, 10, 11, 14, 1, 7, 6, 0, 8, 13]

/-- DES substitution box S7. -/
def sbox7 : List Nat :=
  [4, 11, 2, 14, 15, 0, 8, 13, 3, 12, 9, 7, 5, 10, 6, 1,
   13, 0, 11, 7, 4, 9, 1, 10, 14, 3, 5, 12, 2, 15, 8, 6,
   1, 4, 11, 13, 12, 3, 7, 14, 10, 15, 6, 8, 0, 5, 9, 2,
   6, 11, 13, 8, 1, 4, 10, 7, 9, 5, 0, 15, 14, 2, 3, 12]

/-- DES substitution box S8. -/
def sbox8 : List Nat :=
  [13, 2, 8, 4, 6, 15, 11, 1, 10, 9, 3, 14, 5, 0, 12, 7,
   1, 15, 13, 8, 10, 3, 7, 4, 12, 5, 6, 11, 0, 14, 9, 2,
   7, 11, 4, 1, 9, 12, 14, 2, 0, 6, 10, 13, 15, 3, 5, 8,
   2, 1, 14, 7, 4, 10, 8, 13, 15, 12, 9, 0, 3, 5, 6, 11]

/-- The eight DES substitution boxes. -/
def sboxes : List (List Nat) :=
  [sbox1, sbox2, sbox3, sbox4, sbox5, sbox6, sbox7, sbox8]

/-- Apply one S-box to a 6-bit chunk: the outer bits select the row, the inner four bits the column. -/
def sboxLookup (box : List Nat) (chunk : Nat) : Nat :=
  let row := 2 * (chunk / 32 % 2) + chunk % 2
  let col := chunk / 2 % 16
  box.getD (row * 16 + col) 0

/-- The DES round function: expand, mix with the subkey, substitute, permute. -/
def feistel (k r : Nat) : Nat :=
  let x := Nat.xor (permute 32 eTable r) k
  let sOut := (List.range 8).foldl
    (fun acc j => 16 * acc + sboxLookup (sboxes.getD j []) ((x >>> (42 - 6 * j)) % 64)) 0
  permute 32 pTable sOut

/-- Left-rotation of a 28-bit half-key by `s` positions. -/
def rotl28 (s x : Nat) : Nat :=
  (Nat.lor (Nat.shiftLeft x s) (Nat.shiftRight x (28 - s))) % 268435456

/-- The sixteen 48-bit DES subkeys derived from a 64-bit key. -/
def subkeys (key : Nat) : List Nat :=
  let pc1 := permute 64 pc1Table key
  let start : Nat × Nat × List Nat := (pc1 / 268435456, pc1 % 268435456, [])
  (shiftSchedule.foldl
    (fun acc s =>
      let c := rotl28 s acc.1
      let d := rotl28 s acc.2.1
      (c, d, acc.2.2 ++ [permute 56 pc2Table (c * 268435456 + d)]))
    start).2.2

/-- DES encryption of one 64-bit block under a 64-bit key. -/
def desEncryptBlock (key block : Nat) : Nat :=
  let ip := permute 64 ipTable block
  let lr := (subkeys key).foldl
    (fun (lr : Nat × Nat) k => (lr.2, Nat.xor lr.1 (feistel k lr.2)))
    (ip / 4294967296, ip % 4294967296)
  permute 64 fpTable (lr.2 * 4294967296 + lr.1)

/-- Big-endian assembly of bytes into a block. -/
def bytesToBlock (bs : List Nat) : Nat := bs.foldl (fun acc b => acc * 256 + b) 0

/-- Big-endian decomposition of a 64-bit block into 8 bytes. -/
def blockToBytes (n : Nat) : List Nat :=
  (List.range 8).map fun i => (n >>> (56 - 8 * i)) % 256

/-- Reverse the bit order of one byte (the VNC key convention). -/
def bitReverse8 (b : Nat) : Nat :=
  (List.range 8).foldl (fun acc i => 2 * acc + (b >>> i) % 2) 0

/-- Modelled from the spec: the expected VNC authentication response the claim describes, with the password truncated/padded to 8 bytes, each key byte bit-reversed, and the 16-byte challenge DES-encrypted as two consecutive 8-byte blocks. -/
def desExpectedResponse (password challenge : List Nat) : List Nat :=
  let key := bytesToBlock (((password ++ List.replicate 8 0).take 8).map bitReverse8)
  blockToBytes (desEncryptBlock key (bytesToBlock (challenge.take 8))) ++
  blockToBytes (desEncryptBlock key (bytesToBlock ((challenge.drop 8).take 8)))

end DesSpec

/-- A concrete stand-in for `VNCAuth._hash_password` used to instantiate the
abstract hash parameter on concrete scenarios (the lockout logic only ever
compares hash values for equality). -/
def demoHash (password salt : String) : String := password ++ salt

/-- Run a sequence of `authenticate` calls, each given as a `(time, password)`
pair, against a user record, returning the last result and the final record. -/
def runAuth (hashPw : String → String → String) (user : Authentication.User)
    (calls : List (Nat × String)) : Bool × Authentication.User :=
  calls.foldl (fun acc c => Authentication.authenticate hashPw c.1 acc.2 c.2)
    (false, user)

set_option maxRecDepth 10000 in
/-- Sanity check of the DES reference model against the standard published
test vector (key `133457799BBCDFF1`, plaintext `0123456789ABCDEF`). -/
theorem desEncryptBlock_fips_vector :
    DesSpec.desEncryptBlock 0x133457799BBCDFF1 0x0123456789ABCDEF =
      0x85E813540F0AB405 := by
  decide

/-- C1: on a server that requires authentication (`auth_callback` set),
`VNCConnection.handle_authentication` offers only `VNC_AUTH = 2`, yet a
client that answers with `NONE = 1` receives the SecurityResult success word
`00 00 00 00` and the function returns `True`, so the handshake proceeds —
the claim that an out-of-offer choice always gets a failure result and a
closed connection is violated by the code.  `VNCServer._do_authentication`
(the `vnc/server` variant) does reject the same choice with a failure word. -/
theorem C1_choosing_none_bypasses_required_auth :
    RfbProtocol.security_types true = [1, 2] ∧
    RfbProtocol.handle_authentication true (List.replicate 16 0) 1 false =
      ([0, 0, 0, 0], true, false) ∧
    VncServer.do_authentication [115, 101, 99] (List.replicate 16 0) 1
        (List.replicate 16 0) = ([0, 0, 0, 1], false, false) := by
  decide

/-- C3: the accept loop of `core_vnc_server.py` enforces no connection
limit: with one client already in the table (so any `max_connections = 1`
bound is already reached), an accepted socket is still appended to
`self.clients`, and `_handle_client` immediately writes the 12-byte RFB
version greeting to it, so bytes are sent to the peer. -/
theorem C3_accept_has_no_connection_limit :
    CoreVncServer.accept_connection [7] 8 = [7, 8] ∧
    (CoreVncServer.accept_connection [7] 8).length = 2 ∧
    CoreVncServer.handle_client_greeting.length = 12 := by
  decide

/-- C2 counterexample: failures at times 10, 100 and 200 lock the user
(`login_attempts = 3`), and an attempt at time 350 with the correct
password lies within 300 seconds of the third failure (350 - 200 < 300), so
the claim says it must return locked; the code instead measures the window
from the first failure (350 - 10 ≥ 300), resets the counter and returns ok. -/
theorem C2_counterexample :
    ((runAuth demoHash ⟨"admin", "pws", "s", 0, none, 0⟩
        [(10, "x"), (100, "x"), (200, "x")]).2.login_attempts = 3) ∧
    (350 - 200 < Authentication.lockout_duration) ∧
    ((Authentication.authenticate demoHash 350
        (runAuth demoHash ⟨"admin", "pws", "s", 0, none, 0⟩
          [(10, "x"), (100, "x"), (200, "x")]).2 "pw").1 = true) := by
  decide

set_option maxRecDepth 10000 in
/-- C4 counterexample: for the password `"password"` and the all-zero
16-byte challenge, the response computed by the code (both
`VNCAuth.vnc_challenge_response` of `authentication.py` and
`VNCAuth.encrypt_challenge` of `rfb.py`, an XOR stub) differs from the
DES-based expected response the claim describes. -/
theorem C4_counterexample :
    Authentication.vnc_challenge_response
        [112, 97, 115, 115, 119, 111, 114, 100] (List.replicate 16 0) ≠
      DesSpec.desExpectedResponse
        [112, 97, 115, 115, 119, 111, 114, 100] (List.replicate 16 0) ∧
    Rfb.encrypt_challenge (List.replicate 16 0)
        [112, 97, 115, 115, 119, 111, 114, 100] ≠
      DesSpec.desExpectedResponse
        [112, 97, 115, 115, 119, 111, 114, 100] (List.replicate 16 0) := by
  decide

/-- C8 counterexample: a freshly connected client has `encodings =
[EncodingType.RAW]`, but a SetEncodings message with count 0 replaces the
list with the empty list, not with `[Raw]` as the claim states. -/
theorem C8_counterexample :
    (VncServer.handle_set_encodings {} []).encodings = [] ∧
    ({} : VncServer.VNCClient).encodings = [0] ∧
    (VncServer.handle_set_encodings {} []).encodings ≠ [0] := by
  decide

/-- C9 counterexample: the claim says exactly `0xFFBE..0xFFC9` map to
function keys and every other keysym is dropped, but the code's range runs
to `0xFFCD`: keysym `0xFFCA` maps to F13 and `0xFFCD` to F16 instead of
being dropped. -/
theorem C9_counterexample :
    VncServer.keysym_to_key 0xFFCA = some "f13" ∧
    VncServer.keysym_to_key 0xFFCD = some "f16" := by
  decide

/-- The password-comparison tail of `authenticate` returns `False` on a hash
mismatch and never touches `password_hash` or `salt`. -/
theorem authCheck_wrong_preserves
    (hashPw : String → String → String) (now : Nat)
    (u : Authentication.User) (q : String)
    (hw : hashPw q u.salt ≠ u.password_hash) :
    (Authentication.authenticate.authCheck hashPw now u q).1 = false ∧
    (Authentication.authenticate.authCheck hashPw now u q).2.password_hash =
      u.password_hash ∧
    (Authentication.authenticate.authCheck hashPw now u q).2.salt = u.salt := by
  unfold Authentication.authenticate.authCheck
  rw [if_neg hw]
  dsimp only
  split <;> exact ⟨rfl, rfl, rfl⟩

/-- C7: an `authenticate` call with a wrong password (its hash does not
match the stored hash) returns `False` and leaves the stored password hash
and salt unchanged — only `login_attempts` and `last_login` bookkeeping can
move. -/
theorem C7_failed_auth_preserves_hash_and_salt
    (hashPw : String → String → String) (now : Nat)
    (user : Authentication.User) (q : String)
    (hwrong : hashPw q user.salt ≠ user.password_hash) :
    (Authentication.authenticate hashPw now user q).1 = false ∧
    (Authentication.authenticate hashPw now user q).2.password_hash =
      user.password_hash ∧
    (Authentication.authenticate hashPw now user q).2.salt = user.salt := by
  unfold Authentication.authenticate
  split
  · split
    · split
      · exact ⟨rfl, rfl, rfl⟩
      · exact authCheck_wrong_preserves hashPw now _ q hwrong
    · exact authCheck_wrong_preserves hashPw now _ q hwrong
  · exact authCheck_wrong_preserves hashPw now user q hwrong

/-- Witness for C7 at a concrete user and wrong password. -/
theorem C7_witness :
    demoHash "q" "s" ≠ "pws" ∧
    ((Authentication.authenticate demoHash 5
        ⟨"u", "pws", "s", 0, none, 0⟩ "q").1 = false ∧
     (Authentication.authenticate demoHash 5
        ⟨"u", "pws", "s", 0, none, 0⟩ "q").2.password_hash = "pws" ∧
     (Authentication.authenticate demoHash 5
        ⟨"u", "pws", "s", 0, none, 0⟩ "q").2.salt = "s") :=
  ⟨by decide,
   C7_failed_auth_preserves_hash_and_salt demoHash 5
     ⟨"u", "pws", "s", 0, none, 0⟩ "q" (by decide)⟩

/-- C10: `add_user` on an existing username returns `False` (already
exists), leaves the whole user table unchanged, and performs no
`save_users` write. -/
theorem C10_add_existing_user_is_noop
    (hashPw : String → String → String) (salt : String) (now : Nat)
    (users : List (String × Authentication.User)) (username password : String)
    (hmem : (users.lookup username).isSome) :
    Authentication.add_user hashPw salt now users username password =
      (false, users, false) := by
  unfold Authentication.add_user
  rw [if_pos hmem]

/-- Witness for C10 at a concrete one-user table. -/
theorem C10_witness :
    (([("admin", (⟨"admin", "h", "s", 0, none, 0⟩ : Authentication.User))].lookup
        "admin").isSome = true) ∧
    Authentication.add_user demoHash "s2" 9
        [("admin", ⟨"admin", "h", "s", 0, none, 0⟩)] "admin" "pw2" =
      (false, [("admin", ⟨"admin", "h", "s", 0, none, 0⟩)], false) :=
  ⟨by decide,
   C10_add_existing_user_is_noop demoHash "s2" 9
     [("admin", ⟨"admin", "h", "s", 0, none, 0⟩)] "admin" "pw2" (by decide)⟩

/-- C2 as amended: three consecutive wrong-password calls (times `t1 ≤ t2 ≤
t3`) leave the user with `login_attempts = 3` and `last_login` equal to the
time of the FIRST failure `t1`; while `now - t1 < 300` (and `t1 ≠ 0`, since
Python treats the timestamp `0.0` as falsy) every call returns locked
(`False`) and changes nothing, and once `now - t1 ≥ 300` a call with the
correct password resets the counter and returns ok — i.e. the 300-second
lockout window is measured from the first failure of the streak, not the
third. -/
theorem C2_lockout_window_from_first_failure
    (hashPw : String → String → String) (u : Authentication.User)
    (t1 t2 t3 now : Nat) (p1 p2 p3 q : String)
    (h0 : u.login_attempts = 0)
    (hw1 : hashPw p1 u.salt ≠ u.password_hash)
    (hw2 : hashPw p2 u.salt ≠ u.password_hash)
    (hw3 : hashPw p3 u.salt ≠ u.password_hash) :
    (runAuth hashPw u [(t1, p1), (t2, p2), (t3, p3)]).2 =
      { u with login_attempts := 3, last_login := some t1 } ∧
    (t1 ≠ 0 → now - t1 < Authentication.lockout_duration →
      Authentication.authenticate hashPw now
          { u with login_attempts := 3, last_login := some t1 } q =
        (false, { u with login_attempts := 3, last_login := some t1 })) ∧
    (Authentication.lockout_duration ≤ now - t1 →
      hashPw q u.salt = u.password_hash →
      (Authentication.authenticate hashPw now
          { u with login_attempts := 3, last_login := some t1 } q).1 = true) := by
  have hlt3 : ¬ (u.login_attempts ≥ Authentication.max_login_attempts) := by
    simp [h0, Authentication.max_login_attempts]
  have s1 : Authentication.authenticate hashPw t1 u p1 =
      (false, { u with login_attempts := 1, last_login := some t1 }) := by
    unfold Authentication.authenticate Authentication.authenticate.authCheck
    rw [if_neg hlt3, if_neg hw1]
    simp [h0]
  have s2 : Authentication.authenticate hashPw t2
      { u with login_attempts := 1, last_login := some t1 } p2 =
      (false, { u with login_attempts := 2, last_login := some t1 }) := by
    unfold Authentication.authenticate Authentication.authenticate.authCheck
    rw [if_neg (by simp [Authentication.max_login_attempts]), if_neg hw2]
    simp
  have s3 : Authentication.authenticate hashPw t3
      { u with login_attempts := 2, last_login := some t1 } p3 =
      (false, { u with login_attempts := 3, last_login := some t1 }) := by
    unfold Authentication.authenticate Authentication.authenticate.authCheck
    rw [if_neg (by simp [Authentication.max_login_attempts]), if_neg hw3]
    simp
  refine ⟨?_, ?_, ?_⟩
  · simp [runAuth, s1, s2, s3]
  · intro ht hlt
    unfold Authentication.authenticate
    rw [if_pos (by simp [Authentication.max_login_attempts])]
    dsimp only
    rw [if_pos ⟨ht, hlt⟩]
  · intro hge hq
    unfold Authentication.authenticate Authentication.authenticate.authCheck
    rw [if_pos (by simp [Authentication.max_login_attempts])]
    dsimp only
    rw [if_neg (fun hc => absurd hc.2 (not_lt.mpr hge)), if_pos hq]

/-- Witness for C2 at a concrete user: wrong passwords at times 10, 20, 30,
then at time 400 (≥ 300 seconds after the first failure) the correct
password authenticates. -/
theorem C2_lockout_witness :
    (Authentication.authenticate demoHash 400
        { username := "a", password_hash := "pws", salt := "s",
          created_at := 0, last_login := some 10, login_attempts := 3 }
        "pw").1 = true :=
  (C2_lockout_window_from_first_failure demoHash
      ⟨"a", "pws", "s", 0, none, 0⟩ 10 20 30 400 "x" "x" "x" "pw" rfl
      (by decide) (by decide) (by decide)).2.2 (by decide) (by decide)

/-- The two key-padding styles in the sources agree: appending eight NULs
and truncating to 8 bytes equals truncating to 8 bytes and right-padding
with NULs to length 8. -/
theorem padKey_eq (password : List Nat) :
    (password ++ List.replicate 8 0).take 8 =
      password.take 8 ++ List.replicate (8 - (password.take 8).length) 0 := by
  rw [List.take_append_eq_append_take]
  congr 1
  rw [List.take_replicate]
  congr 1
  simp only [List.length_take]
  omega

/-- C4 as amended: the expected VNC authentication response the server
computes is not DES at all — `VNCAuth.vnc_challenge_response`
(`authentication.py`) and `VNCAuth.encrypt_challenge` (`rfb.py`) compute
the same function, a 16-byte list whose `i`-th byte is the XOR of challenge
byte `i` with byte `i mod 8` of the password truncated to 8 bytes and
right-padded with NULs; no byte of the key is bit-reversed. -/
theorem C4_response_is_xor_of_padded_password
    (password challenge : List Nat) :
    Authentication.vnc_challenge_response password challenge =
      Rfb.encrypt_challenge challenge password ∧
    (Authentication.vnc_challenge_response password challenge).length = 16 ∧
    (∀ i, i < 16 →
      (Authentication.vnc_challenge_response password challenge).getD i 0 =
        Nat.xor (challenge.getD i 0)
          (((password ++ List.replicate 8 0).take 8).getD (i % 8) 0)) := by
  refine ⟨?_, ?_, ?_⟩
  · unfold Authentication.vnc_challenge_response Rfb.encrypt_challenge
    simp only [padKey_eq]
  · simp [Authentication.vnc_challenge_response]
  · intro i hi
    unfold Authentication.vnc_challenge_response
    simp [List.getD, List.getElem?_map, List.getElem?_range, hi]

/-- Witness for C4's amended statement at a one-byte password and
challenge: the first response byte is the XOR of the two bytes. -/
theorem C4_response_witness :
    (Authentication.vnc_challenge_response [5] [9]).getD 0 0 = Nat.xor 9 5 :=
  ((C4_response_is_xor_of_padded_password [5] [9]).2.2 0 (by decide)).trans
    (by decide)

/-- C5: packing then unpacking is the identity on `PixelFormat` for fields
in their `struct` ranges, and on `Rectangle` headers for non-negative
(i32-valid) encoding ids; but for a pseudo-encoding id such as `-239`
(`CURSOR`), `pack_header` raises `struct.error` (format `I` is unsigned),
so the claimed round trip fails for rectangles with negative encodings. -/
theorem C5_roundtrip_and_pseudo_encoding_failure :
    (∀ pf : Rfb.PixelFormat,
      pf.bits_per_pixel < 256 → pf.depth < 256 →
      pf.red_max < 65536 → pf.green_max < 65536 → pf.blue_max < 65536 →
      pf.red_shift < 256 → pf.green_shift < 256 → pf.blue_shift < 256 →
      pf.pack.bind Rfb.PixelFormat.unpack = some pf) ∧
    (∀ r : Rfb.Rectangle, r.data = [] →
      r.x < 65536 → r.y < 65536 → r.width < 65536 → r.height < 65536 →
      0 ≤ r.encoding → r.encoding < 2147483648 →
      r.pack_header.bind Rfb.Rectangle.unpack_header = some r) ∧
    Rfb.Rectangle.pack_header ⟨0, 0, 1, 1, -239, []⟩ = none := by
  refine ⟨?_, ?_, ?_⟩
  · intro pf h1 h2 h3 h4 h5 h6 h7 h8
    obtain ⟨bpp, dep, be, tc, rm, gm, bm, rs, gs, bs⟩ := pf
    simp only at h1 h2 h3 h4 h5 h6 h7 h8
    unfold Rfb.PixelFormat.pack
    rw [if_pos ⟨h1, h2, h3, h4, h5, h6, h7, h8⟩]
    unfold Rfb.u16be
    simp only [List.cons_append, List.nil_append, Option.some_bind]
    unfold Rfb.PixelFormat.unpack Rfb.beToNat2
    simp only [Option.some.injEq, Rfb.PixelFormat.mk.injEq]
    cases be <;> cases tc <;> simp <;> omega
  · intro r hdata h1 h2 h3 h4 h5 h6
    obtain ⟨x, y, w, h, e, d⟩ := r
    simp only at hdata h1 h2 h3 h4 h5 h6
    subst hdata
    have hn : ((e.toNat : Int)) = e := Int.toNat_of_nonneg h5
    have hn2 : e.toNat < 2147483648 := by omega
    unfold Rfb.Rectangle.pack_header
    dsimp only
    rw [if_pos ⟨h1, h2, h3, h4, h5, by omega⟩]
    unfold Rfb.u16be Rfb.u32be
    simp only [List.cons_append, List.nil_append, Option.some_bind]
    unfold Rfb.Rectangle.unpack_header Rfb.beToNat2 Rfb.beToNat4
    have hraw : ((e.toNat / 16777216 % 256 * 256 + e.toNat / 65536 % 256) * 256 +
        e.toNat / 256 % 256) * 256 + e.toNat % 256 = e.toNat := by omega
    simp only [hraw, Option.some.injEq, Rfb.Rectangle.mk.injEq]
    rw [if_pos hn2]
    refine ⟨by omega, by omega, by omega, by omega, hn, trivial⟩
  · decide

/-- Witness for C5's round-trip conjuncts at the server's default pixel
format and a concrete Raw rectangle header. -/
theorem C5_roundtrip_witness :
    (({} : Rfb.PixelFormat).pack.bind Rfb.PixelFormat.unpack =
      some ({} : Rfb.PixelFormat)) ∧
    ((⟨3, 4, 5, 6, 16, []⟩ : Rfb.Rectangle).pack_header.bind
        Rfb.Rectangle.unpack_header = some ⟨3, 4, 5, 6, 16, []⟩) :=
  ⟨(C5_roundtrip_and_pseudo_encoding_failure).1 {} (by decide) (by decide)
      (by decide) (by decide) (by decide) (by decide) (by decide) (by decide),
   (C5_roundtrip_and_pseudo_encoding_failure).2.1 ⟨3, 4, 5, 6, 16, []⟩ rfl
      (by decide) (by decide) (by decide) (by decide) (by decide) (by decide)⟩

/-- Each demo pixel is a 4-byte big-endian word. -/
theorem demoPixel_length (w h x y : Nat) :
    (RfbProtocol.demoPixel w h x y).length = 4 := rfl

/-- C6: `create_framebuffer_update` can never produce a message — its
`struct.pack('!BXHHHHHHI', ...)` call has an invalid format character and a
mismatched argument count, so it raises `struct.error` on every input (and
the connection loop catches the exception and stops instead of sending an
update).  The pixel generator itself does produce `width*height*4` bytes,
as the claim expects of the payload. -/
theorem C6_update_message_never_built :
    (∀ x y width height : Nat, ∀ pixels : List Nat,
      RfbProtocol.create_framebuffer_update x y width height pixels = none) ∧
    (∀ width height : Nat,
      (RfbProtocol.generate_demo_pixels width height).length =
        width * height * 4) := by
  constructor
  · intro x y width height pixels
    simp [RfbProtocol.create_framebuffer_update, RfbProtocol.structPack]
  · intro width height
    unfold RfbProtocol.generate_demo_pixels
    rw [List.length_flatMap]
    have hrow : ∀ y : Nat,
        ((List.range width).flatMap fun x => RfbProtocol.demoPixel width height x y).length =
          width * 4 := by
      intro y
      rw [List.length_flatMap]
      simp only [Function.comp_def, demoPixel_length, List.map_const']
      rw [List.sum_replicate, smul_eq_mul, List.length_range]
    simp only [Function.comp_def, hrow, List.map_const']
    rw [List.sum_replicate, smul_eq_mul, List.length_range]
    ring

/-- C8 as amended: a SetEncodings message with count 0 leaves the
connection's encoding list EMPTY (the `[Raw]` default is replaced by `[]`,
not kept), yet subsequent updates are still Raw-encoded because
`_send_framebuffer_update` hard-codes `EncodingType.RAW` (id 0, the `u32be
0` word in the message below) without consulting the preference list. -/
theorem C8_set_encodings_empty_still_raw
    (client : VncServer.VNCClient) (wd ht : Nat) (data : List Nat)
    (hw : wd < 65536) (hh : ht < 65536) :
    (VncServer.handle_set_encodings client []).encodings = [] ∧
    VncServer.send_framebuffer_update (VncServer.handle_set_encodings client [])
        wd ht data =
      some ([0, 0, 0, 1] ++ Rfb.u16be 0 ++ Rfb.u16be 0 ++ Rfb.u16be wd ++
            Rfb.u16be ht ++ Rfb.u32be 0 ++ data) := by
  refine ⟨by simp [VncServer.handle_set_encodings], ?_⟩
  simp [VncServer.send_framebuffer_update, Rfb.FramebufferUpdate.pack,
        Rfb.Rectangle.pack_header, Rfb.u16be, Rfb.u32be, hw, hh,
        List.mapM.loop]

/-- Witness for C8 on a 320x200 screen. -/
theorem C8_set_encodings_witness :
    (VncServer.handle_set_encodings {} []).encodings = [] ∧
    VncServer.send_framebuffer_update (VncServer.handle_set_encodings {} [])
        320 200 [] =
      some ([0, 0, 0, 1] ++ Rfb.u16be 0 ++ Rfb.u16be 0 ++ Rfb.u16be 320 ++
            Rfb.u16be 200 ++ Rfb.u32be 0 ++ []) :=
  C8_set_encodings_empty_still_raw {} 320 200 [] (by decide) (by decide)

/-- C9 as amended: printable ASCII keysyms other than space map to the
corresponding one-character key, the six named constants map to their named
keys (space maps to the named `space`, not the character), the function-key
range is `0xFFBE..0xFFCD` — F1 through F16, not F1-F12 — and every keysym
outside those sets is dropped (`None`). -/
theorem C9_keysym_mapping_characterization :
    (∀ k : Nat, 0x21 ≤ k → k ≤ 0x7E →
      VncServer.keysym_to_key k = some (String.mk [Char.ofNat k])) ∧
    VncServer.keysym_to_key 0xff08 = some "backspace" ∧
    VncServer.keysym_to_key 0xff09 = some "tab" ∧
    VncServer.keysym_to_key 0xff0d = some "enter" ∧
    VncServer.keysym_to_key 0xff1b = some "esc" ∧
    VncServer.keysym_to_key 0xffff = some "delete" ∧
    VncServer.keysym_to_key 0x20 = some "space" ∧
    (∀ k : Nat, 0xFFBE ≤ k → k ≤ 0xFFCD →
      VncServer.keysym_to_key k = some ("f" ++ toString (k - 0xFFBD))) ∧
    (∀ k : Nat, k ∉ ([0xff08, 0xff09, 0xff0d, 0xff1b, 0xffff] : List Nat) →
      ¬(0x20 ≤ k ∧ k ≤ 0x7E) → ¬(0xFFBE ≤ k ∧ k ≤ 0xFFCD) →
      VncServer.keysym_to_key k = none) := by
  refine ⟨?_, by decide, by decide, by decide, by decide, by decide, by decide,
          ?_, ?_⟩
  · intro k ha hb
    unfold VncServer.keysym_to_key Rfb.KeySym.BACKSPACE Rfb.KeySym.TAB
      Rfb.KeySym.RETURN Rfb.KeySym.ESCAPE Rfb.KeySym.DELETE Rfb.KeySym.SPACE
    rw [if_neg (by omega), if_neg (by omega), if_neg (by omega),
        if_neg (by omega), if_neg (by omega), if_neg (by omega),
        if_pos ⟨by omega, hb⟩]
  · intro k ha hb
    unfold VncServer.keysym_to_key Rfb.KeySym.BACKSPACE Rfb.KeySym.TAB
      Rfb.KeySym.RETURN Rfb.KeySym.ESCAPE Rfb.KeySym.DELETE Rfb.KeySym.SPACE
    rw [if_neg (by omega), if_neg (by omega), if_neg (by omega),
        if_neg (by omega), if_neg (by omega), if_neg (by omega),
        if_neg (by omega), if_pos ⟨ha, hb⟩]
  · intro k hmem hp hf
    simp only [List.mem_cons, List.not_mem_nil, or_false, not_or] at hmem
    obtain ⟨n1, n2, n3, n4, n5⟩ := hmem
    unfold VncServer.keysym_to_key Rfb.KeySym.BACKSPACE Rfb.KeySym.TAB
      Rfb.KeySym.RETURN Rfb.KeySym.ESCAPE Rfb.KeySym.DELETE Rfb.KeySym.SPACE
    rw [if_neg n1, if_neg n2, if_neg n3, if_neg n4, if_neg n5,
        if_neg (fun he => hp ⟨by omega, by omega⟩), if_neg hp, if_neg hf]

/-- Witness for C9's amended characterization at concrete keysyms: a
printable letter, the first function key, and a dropped control keysym. -/
theorem C9_keysym_witness :
    VncServer.keysym_to_key 0x41 = some "A" ∧
    VncServer.keysym_to_key 0xFFBE = some "f1" ∧
    VncServer.keysym_to_key 0x1b = none :=
  ⟨(C9_keysym_mapping_characterization.1 0x41 (by decide) (by decide)).trans
      (by decide),
   (C9_keysym_mapping_characterization.2.2.2.2.2.2.2.1 0xFFBE (by decide)
      (by decide)).trans (by decide),
   C9_keysym_mapping_characterization.2.2.2.2.2.2.2.2 0x1b (by decide)
      (by decide) (by decide)⟩
